import Mathlib

/-!
Shallow embedding of the HTTP client / interceptor pipeline and the
error-normalization layer of the Bitbucket MCP server repository.

Sources embedded here:
- `src/utils/error.util.ts` (ErrorType enum, McpError shape, error
  constructors, ensureMcpError);
- `src/utils/http/interceptors/auth.interceptor.ts` (addAuthHeader);
- `src/utils/http/bitbucket-client.ts` (inline auth, logging and error
  interceptors, createClient server-URL check);
- `src/utils/http/interceptors/error.interceptor.ts` (handleErrorResponse);
- `src/utils/http/interceptors/logging.interceptor.ts` (logRequest);
- `src/utils/apiConfig.ts` (createBitbucketApiConfig authMiddleware);
- `src/tools/atlassianTools.ts` (pagination bounds validation in the
  bitbucket_list_projects / bitbucket_list_repositories handlers).

JavaScript dynamic values are modelled with `Option`: a missing (`undefined`)
string field is `none`.  The JS truthiness test on strings (`undefined` and
`""` are falsy) and the `||` / `??` operators are modelled explicitly below.
-/

namespace BbMcp

/-- The `ErrorType` enum of `src/utils/error.util.ts`.  It has TEN members:
the spec lists nine and omits `AUTH_ERROR`. -/
inductive ErrorType where
  | AUTH_ERROR
  | AUTH_MISSING
  | AUTH_INVALID
  | FORBIDDEN
  | NOT_FOUND
  | API_ERROR
  | CONFIG_ERROR
  | VALIDATION_ERROR
  | REQUEST_ERROR
  | UNEXPECTED_ERROR
  deriving DecidableEq

/-- All ten members of the `ErrorType` enum, in source order. -/
def errorTypeAll : List ErrorType :=
  [ .AUTH_ERROR, .AUTH_MISSING, .AUTH_INVALID, .FORBIDDEN, .NOT_FOUND,
    .API_ERROR, .CONFIG_ERROR, .VALIDATION_ERROR, .REQUEST_ERROR,
    .UNEXPECTED_ERROR ]

/-- The nine kinds named by the specification ("closed enumeration"). -/
def specNineKinds : List ErrorType :=
  [ .AUTH_MISSING, .AUTH_INVALID, .FORBIDDEN, .NOT_FOUND, .API_ERROR,
    .REQUEST_ERROR, .VALIDATION_ERROR, .CONFIG_ERROR, .UNEXPECTED_ERROR ]

/-- JS `a || b` on (possibly undefined) strings: `undefined` and `""` are
falsy, so they fall through to `b`. -/
def jsOr (a b : Option String) : Option String :=
  match a with
  | some s => if s = "" then b else some s
  | none => b

/-- JS `a || b` where `a` is a possibly undefined number: `undefined` and `0`
are falsy. -/
def jsOrNat (a : Option Nat) (b : Nat) : Nat :=
  match a with
  | some n => if n = 0 then b else n
  | none => b

/-- JS truthiness filter on a possibly undefined string: returns the value
exactly when it is present and non-empty. -/
def truthyVal (o : Option String) : Option String :=
  match o with
  | some s => if s = "" then none else some s
  | none => none

/-- The standard base64 alphabet. -/
def b64Alphabet : String :=
  "ABCDEFGHIJKLMNOPQRSTUVWXYZabcdefghijklmnopqrstuvwxyz0123456789+/"

/-- Character of the base64 alphabet at a 6-bit index. -/
def b64Char (n : Nat) : Char :=
  (b64Alphabet.toList).getD n '?'

/-- Base64 encoding of a byte list (each entry < 256), with `=` padding,
as produced by Node `Buffer.prototype.toString('base64')`. -/
def base64EncodeBytes : List Nat → List Char
  | [] => []
  | [a] =>
    [b64Char (a / 4), b64Char (a % 4 * 16), '=', '=']
  | [a, b] =>
    [b64Char (a / 4), b64Char (a % 4 * 16 + b / 16), b64Char (b % 16 * 4), '=']
  | a :: b :: c :: rest =>
    b64Char (a / 4) :: b64Char (a % 4 * 16 + b / 16) ::
      b64Char (b % 16 * 4 + c / 64) :: b64Char (c % 64) ::
      base64EncodeBytes rest

/-- UTF-8 encoding of one character, as a byte list. -/
def utf8Bytes (c : Char) : List Nat :=
  let n := c.toNat
  if n < 128 then [n]
  else if n < 2048 then [192 + n / 64, 128 + n % 64]
  else if n < 65536 then [224 + n / 4096, 128 + n / 64 % 64, 128 + n % 64]
  else [240 + n / 262144, 128 + n / 4096 % 64, 128 + n / 64 % 64, 128 + n % 64]

/-- UTF-8 bytes of a string (what Node `Buffer.from(s)` yields). -/
def strBytes (s : String) : List Nat :=
  s.data.flatMap utf8Bytes

/-- Node `Buffer.from(s).toString('base64')`. -/
def base64EncodeStr (s : String) : String :=
  String.mk (base64EncodeBytes (strBytes s))

/-- One entry of the `errors` array of a Bitbucket error response body
(the code reads only its optional `message` field). -/
structure ErrItem where
  message : Option String
  deriving DecidableEq

/-- The parsed response body (`error.response.data`), restricted to the
fields the interceptors read: `errors` (array), `message`, and `error`.
Every field may be absent. -/
structure RespData where
  errors : Option (List ErrItem)
  message : Option String
  error : Option ErrItem
  deriving DecidableEq

/-- `error.response`: the HTTP response attached to an axios failure.
`status` is kept optional because the code guards it with `status || 500`. -/
structure AxResponse where
  status : Option Nat
  data : Option RespData
  deriving DecidableEq

/-- An axios failure value as the interceptors see it: an optional attached
HTTP response and the transport error's own optional `message`. -/
structure AxiosErr where
  response : Option AxResponse
  message : Option String
  deriving DecidableEq

/-- The `McpError` shape of `src/utils/error.util.ts`:
`(message, type, statusCode, originalError)`.  `message` is kept as the
possibly-undefined value the call sites actually pass. -/
structure McpE where
  message : Option String
  etype : ErrorType
  statusCode : Nat
  cause : Option AxiosErr
  deriving DecidableEq

/-- `error.response.data?.errors?.[0]?.message` — optional chaining. -/
def dataErrorsFirstMessage (d : Option RespData) : Option String :=
  d.bind (fun dd => dd.errors.bind (fun l => l.head?.bind (fun it => it.message)))

/-- `error.response.data?.message` — optional chaining. -/
def dataMessage (d : Option RespData) : Option String :=
  d.bind (fun dd => dd.message)

/-- `error.response.data?.error?.message` — optional chaining (the variant
read by the inline interceptor of `bitbucket-client.ts`). -/
def dataErrorMessage (d : Option RespData) : Option String :=
  d.bind (fun dd => dd.error.bind (fun it => it.message))

/-- `createAuthMissingError` of `error.util.ts`. -/
def createAuthMissingError (message : String) : McpE :=
  ⟨some message, .AUTH_MISSING, 401, none⟩

/-- `createAuthInvalidError` of `error.util.ts`. -/
def createAuthInvalidError (message : String) : McpE :=
  ⟨some message, .AUTH_INVALID, 401, none⟩

/-- `createApiError` of `error.util.ts` (`statusCode ?? 500` — nullish
coalescing keeps an explicit `0`). -/
def createApiError (message : String) (statusCode : Option Nat)
    (originalError : Option AxiosErr) : McpE :=
  ⟨some message, .API_ERROR, statusCode.getD 500, originalError⟩

/-- `createNotFoundError` of `error.util.ts`. -/
def createNotFoundError (message : String) : McpE :=
  ⟨some message, .NOT_FOUND, 404, none⟩

/-- `createAuthError` of `error.util.ts` — kind `AUTH_ERROR`, the tenth
member the spec omits. -/
def createAuthError (message : String) : McpE :=
  ⟨some message, .AUTH_ERROR, 401, none⟩

/-- `createForbiddenError` of `error.util.ts`. -/
def createForbiddenError (message : String) : McpE :=
  ⟨some message, .FORBIDDEN, 403, none⟩

/-- `createRequestError` of `error.util.ts`. -/
def createRequestError (message : String) (originalError : Option AxiosErr) : McpE :=
  ⟨some message, .REQUEST_ERROR, 500, originalError⟩

/-- `createValidationError` of `error.util.ts`. -/
def createValidationError (message : String) : McpE :=
  ⟨some message, .VALIDATION_ERROR, 400, none⟩

/-- `createConfigError` of `error.util.ts`. -/
def createConfigError (message : String) : McpE :=
  ⟨some message, .CONFIG_ERROR, 500, none⟩

/-- `handleErrorResponse` of
`src/utils/http/interceptors/error.interceptor.ts`.  The function always
rejects with exactly one `McpError`; its total `AxiosErr → McpE` type models
that.  The `switch (status)` is rendered as an if-chain on the status. -/
def handleErrorResponse (e : AxiosErr) : McpE :=
  match e.response with
  | some resp =>
    let detailedMessage := dataErrorsFirstMessage resp.data
    let generalMessage := dataMessage resp.data
    let message := jsOr (jsOr detailedMessage generalMessage) e.message
    if resp.status = some 401 then ⟨message, .AUTH_INVALID, 401, some e⟩
    else if resp.status = some 403 then ⟨message, .FORBIDDEN, 403, some e⟩
    else if resp.status = some 404 then ⟨message, .NOT_FOUND, 404, some e⟩
    else ⟨message, .API_ERROR, jsOrNat resp.status 500, some e⟩
  | none =>
    ⟨jsOr e.message (some "Network error occurred"), .REQUEST_ERROR, 500, some e⟩

/-- The response error interceptor installed by
`BitbucketClient.addErrorInterceptor` (inline in `bitbucket-client.ts`).
It reads `data?.error?.message || error.message` and, on the no-response
branch, always uses the literal network message. -/
def clientErrorInterceptor (e : AxiosErr) : McpE :=
  match e.response with
  | some resp =>
    let message := jsOr (dataErrorMessage resp.data) e.message
    if resp.status = some 401 then ⟨message, .AUTH_INVALID, 401, some e⟩
    else if resp.status = some 403 then ⟨message, .FORBIDDEN, 403, some e⟩
    else if resp.status = some 404 then ⟨message, .NOT_FOUND, 404, some e⟩
    else ⟨message, .API_ERROR, jsOrNat resp.status 500, some e⟩
  | none =>
    ⟨some "Network error occurred", .REQUEST_ERROR, 500, some e⟩

/-- The optional per-request `bitbucket` credential override of
`BitbucketRequestConfig` in `bitbucket-client.ts`. -/
structure BbOverride where
  username : Option String
  password : Option String
  deriving DecidableEq

/-- Outbound request headers: the `Authorization` entry the auth stage
writes, plus the remaining caller-supplied entries, untouched by the
embedded stages. -/
structure Headers where
  authorization : Option String
  rest : List (String × String)
  deriving DecidableEq

/-- An outbound request context (`InternalAxiosRequestConfig`, extended with
the optional `bitbucket` override of `BitbucketRequestConfig`). -/
structure Req where
  method : Option String
  url : Option String
  headers : Headers
  body : Option String
  bitbucket : Option BbOverride
  deriving DecidableEq

/-- The three configuration keys the auth stages read
(`ATLASSIAN_BITBUCKET_ACCESS_TOKEN`, `ATLASSIAN_BITBUCKET_USERNAME`,
`ATLASSIAN_BITBUCKET_PASSWORD`), each possibly unset. -/
structure AuthCfg where
  token : Option String
  username : Option String
  password : Option String
  deriving DecidableEq

/-- `requestConfig.headers.Authorization = v`. -/
def setAuthHeader (r : Req) (v : String) : Req :=
  { r with headers := { r.headers with authorization := some v } }

/-- `addAuthHeader` of `src/utils/http/interceptors/auth.interceptor.ts`,
in the axios request-interceptor protocol (`Except` models a handler that
may reject).  Every path of the source returns the request config — the
no-credential branch only logs a warning — so every branch is `.ok`. -/
def addAuthHeaderE (cfg : AuthCfg) (r : Req) : Except McpE Req :=
  match truthyVal cfg.token with
  | some t => .ok (setAuthHeader r ("Bearer " ++ t))
  | none =>
    match truthyVal cfg.username, truthyVal cfg.password with
    | some u, some p =>
      .ok (setAuthHeader r ("Basic " ++ base64EncodeStr (u ++ ":" ++ p)))
    | _, _ => .ok r

/-- The request interceptor installed by `BitbucketClient.addAuthInterceptor`
(inline in `bitbucket-client.ts`).  Identical to `addAuthHeader` except that
`requestConfig.bitbucket?.username || config.get(...)` allows a per-request
override; the no-credential branch again only logs ("we don't error here"). -/
def clientAuthE (cfg : AuthCfg) (r : Req) : Except McpE Req :=
  match truthyVal cfg.token with
  | some t => .ok (setAuthHeader r ("Bearer " ++ t))
  | none =>
    let u := jsOr (r.bitbucket.bind (fun b => b.username)) cfg.username
    let p := jsOr (r.bitbucket.bind (fun b => b.password)) cfg.password
    match truthyVal u, truthyVal p with
    | some uv, some pv =>
      .ok (setAuthHeader r ("Basic " ++ base64EncodeStr (uv ++ ":" ++ pv)))
    | _, _ => .ok r

/-- The `authMiddleware` of `createBitbucketApiConfig`
(`src/utils/apiConfig.ts`): reads
`process.env.ATLASSIAN_BITBUCKET_ACCESS_TOKEN || config.get(...)` (both the
same key, hence `jsOr cfg.token cfg.token`), sets only a Bearer header when
the token is truthy, and otherwise just logs a warning — it has no Basic
auth branch at all. -/
def authMiddlewareE (cfg : AuthCfg) (r : Req) : Except McpE Req :=
  match truthyVal (jsOr cfg.token cfg.token) with
  | some t => .ok (setAuthHeader r ("Bearer " ++ t))
  | none => .ok r

/-- Whether a pipeline stage outcome is a rejection. -/
def stageRejects (x : Except McpE Req) : Bool :=
  match x with
  | .error _ => true
  | .ok _ => false

/-- The debug line `logRequest` emits:
`config.method?.toUpperCase()` interpolates as the string `undefined` when
the method is absent, and so does `config.url`. -/
def logLine (r : Req) : String :=
  (match r.method with
   | some m => m.toUpper
   | none => "undefined") ++ " " ++ (match r.url with
   | some u => u
   | none => "undefined")

/-- `logRequest` of `src/utils/http/interceptors/logging.interceptor.ts`:
emits the debug line and returns the request config itself; it has no
rejecting path. -/
def logRequest (r : Req) : Except McpE (String × Req) :=
  .ok (logLine r, r)

/-- The inline request logging interceptor installed by
`BitbucketClient.addLoggingInterceptor` — same body as `logRequest`. -/
def clientLogRequest (r : Req) : Except McpE (String × Req) :=
  .ok (logLine r, r)

/-- An error raised during client construction: either a plain JS `Error`
(only a message, no `ErrorType`) or a typed `McpError`. -/
inductive Raised where
  | plain (message : String)
  | mcpE (e : McpE)
  deriving DecidableEq

/-- The message of the plain `Error` thrown by `BitbucketClient.createClient`
when the server URL key is unset. -/
def urlMissingMsg : String :=
  "Bitbucket Server URL is not configured. Please set ATLASSIAN_BITBUCKET_SERVER_URL environment variable."

/-- The server-URL check at the top of `BitbucketClient.createClient`:
`if (!serverUrl) throw new Error(...)` — a plain `Error`, not an `McpError`;
on success the axios client is created with this base URL (interceptors are
installed only after this point). -/
def createClientE (serverUrl : Option String) : Except Raised String :=
  match truthyVal serverUrl with
  | none => .error (.plain urlMissingMsg)
  | some url => .ok url

/-- Whether a construction outcome raised an `McpError` of kind
`CONFIG_ERROR`. -/
def raisedIsConfigError (x : Except Raised String) : Bool :=
  match x with
  | .error (.mcpE e) => decide (e.etype = .CONFIG_ERROR)
  | _ => false

/-- The generated-client configuration of `createBitbucketApiConfig`: it
stores `process.env.ATLASSIAN_BITBUCKET_SERVER_URL` as `basePath` with no
check and raises nothing. -/
def apiConfigBasePath (serverUrl : Option String) : Option String :=
  serverUrl

/-- The options object the `bitbucket_list_projects` handler passes to the
service after its bounds checks. -/
structure ListProjectsOptions where
  name : Option String
  permission : Option String
  limit : Option Int
  start : Option Int
  deriving DecidableEq

/-- The options object the `bitbucket_list_repositories` handler passes to
the service after its bounds checks. -/
structure ListReposOptions where
  limit : Option Int
  start : Option Int
  deriving DecidableEq

/-- `params.limit !== undefined && (params.limit <= 0 || params.limit > 100)`. -/
def limitOutOfRange (limit : Option Int) : Bool :=
  match limit with
  | some l => decide (l ≤ 0) || decide (100 < l)
  | none => false

/-- `params.start !== undefined && params.start < 0`. -/
def startNegative (start : Option Int) : Bool :=
  match start with
  | some s => decide (s < 0)
  | none => false

/-- The bounds checks of the `bitbucket_list_projects` tool handler
(`registerAtlassianTools`): throws `createValidationError` before the
service is invoked; `.ok` carries the options handed to
`projectsService.listProjects`. -/
def listProjectsValidate (name permission : Option String)
    (limit start : Option Int) : Except McpE ListProjectsOptions :=
  if limitOutOfRange limit then
    .error (createValidationError "Parameter \"limit\" must be between 1 and 100.")
  else if startNegative start then
    .error (createValidationError "Parameter \"start\" must be 0 or greater.")
  else
    .ok ⟨name, permission, limit, start⟩

/-- The identical bounds checks of the `bitbucket_list_repositories` tool
handler. -/
def listRepositoriesValidate (limit start : Option Int) :
    Except McpE ListReposOptions :=
  if limitOutOfRange limit then
    .error (createValidationError "Parameter \"limit\" must be between 1 and 100.")
  else if startNegative start then
    .error (createValidationError "Parameter \"start\" must be 0 or greater.")
  else
    .ok ⟨limit, start⟩

/-- A JS error-like value as `ensureMcpError` of `error.util.ts` receives it:
an `McpError` instance, some other `Error` instance (with its message), or
any other value (represented by its `String(...)` rendering). -/
inductive ErrVal where
  | mcp (message : String) (etype : ErrorType) (statusCode : Nat) (cause : Option ErrVal)
  | jsError (message : String)
  | other (str : String)

/-- `value instanceof Error` (an `McpError` is also an `Error`). -/
def errValIsError : ErrVal → Bool
  | .mcp _ _ _ _ => true
  | .jsError _ => true
  | .other _ => false

/-- `.message` of an `Error` instance (`""` for non-errors, unused there). -/
def errValMessage : ErrVal → String
  | .mcp m _ _ _ => m
  | .jsError m => m
  | .other _ => ""

/-- `String(value)`; for an `.other` value it is the stored rendering (only
that case is reached by `ensureMcpError`). -/
def strOfErrVal : ErrVal → String
  | .mcp m _ _ _ => m
  | .jsError m => m
  | .other s => s

/-- `createUnexpectedError` of `error.util.ts`:
`message = error instanceof Error ? error.message : String(error)`,
kind `UNEXPECTED_ERROR`, status 500, cause = the argument. -/
def createUnexpectedErrorV (e : ErrVal) : ErrVal :=
  .mcp (if errValIsError e then errValMessage e else strOfErrVal e)
    .UNEXPECTED_ERROR 500 (some e)

/-- `ensureMcpError` of `error.util.ts`: returns an `McpError` unchanged,
wraps any other `Error`, and wraps `String(error)` for everything else. -/
def ensureMcpErrorV (e : ErrVal) : ErrVal :=
  match e with
  | .mcp _ _ _ _ => e
  | .jsError _ => createUnexpectedErrorV e
  | .other s => createUnexpectedErrorV (.other s)

/-- Whether a value is an `McpError` instance. -/
def isMcpV : ErrVal → Bool
  | .mcp _ _ _ _ => true
  | _ => false

/-- The `type` field of an `McpError` value, when it is one. -/
def etypeOfV : ErrVal → Option ErrorType
  | .mcp _ t _ _ => some t
  | _ => none

/-- The `statusCode` field of an `McpError` value, when it is one. -/
def statusOfV : ErrVal → Option Nat
  | .mcp _ _ s _ => some s
  | _ => none

/-- Modelled from the spec's words (for comparison with the code): the
status → ErrorKind mapping "401→AuthInvalid, 403→Forbidden, 404→NotFound,
anything else (including absent) → ApiError". -/
def specKindOfStatus (s : Option Nat) : ErrorType :=
  match s with
  | some n =>
    if n = 401 then .AUTH_INVALID
    else if n = 403 then .FORBIDDEN
    else if n = 404 then .NOT_FOUND
    else .API_ERROR
  | none => .API_ERROR

/-- Modelled from the spec's words: `httpStatus` equals the original status,
defaulted to 500 only when the original status is absent. -/
def specHttpStatus (s : Option Nat) : Nat :=
  match s with
  | some n => n
  | none => 500

/-- Whether a logging-stage outcome is a rejection. -/
def logStageRejects (x : Except McpE (String × Req)) : Bool :=
  match x with
  | .error _ => true
  | .ok _ => false

/-- The Authorization header of a request-stage outcome (absent on
rejection). -/
def stageAuthHeader (x : Except McpE Req) : Option String :=
  match x with
  | .ok r => r.headers.authorization
  | .error _ => none

theorem truthyVal_jsOr_self (a : Option String) :
    truthyVal (jsOr a a) = truthyVal a := by
  cases a with
  | none => rfl
  | some s =>
    by_cases h : s = "" <;> simp [jsOr, truthyVal, h]

/-- C1 counterexample: with no bearer token and no username/password
configured, both auth stages return the request unchanged as a success —
neither fails the request with an AuthMissing error, contradicting the
claim that the auth stage fails with kind AuthMissing and httpStatus 401. -/
theorem auth_stage_no_credentials_cex :
    addAuthHeaderE ⟨none, none, none⟩
        ⟨some "get", some "/rest/api/latest/projects", ⟨none, []⟩, none, none⟩ =
      Except.ok ⟨some "get", some "/rest/api/latest/projects", ⟨none, []⟩, none, none⟩ ∧
    clientAuthE ⟨none, none, none⟩
        ⟨some "get", some "/rest/api/latest/projects", ⟨none, []⟩, none, none⟩ =
      Except.ok ⟨some "get", some "/rest/api/latest/projects", ⟨none, []⟩, none, none⟩ ∧
    stageRejects (addAuthHeaderE ⟨none, none, none⟩
        ⟨some "get", some "/rest/api/latest/projects", ⟨none, []⟩, none, none⟩) = false ∧
    stageRejects (clientAuthE ⟨none, none, none⟩
        ⟨some "get", some "/rest/api/latest/projects", ⟨none, []⟩, none, none⟩) = false :=
  ⟨rfl, rfl, rfl, rfl⟩

/-- C1 (amended): when neither a bearer token nor a complete
username+password pair is available, `addAuthHeader` and the client auth
interceptor log a warning and return the request unchanged (no Authorization
header added, no rejection); 401 handling is deferred to the response error
interceptor. -/
theorem auth_stage_no_credentials (cfg : AuthCfg) (r : Req)
    (ht : truthyVal cfg.token = none)
    (hup : truthyVal cfg.username = none ∨ truthyVal cfg.password = none)
    (hb : r.bitbucket = none) :
    addAuthHeaderE cfg r = Except.ok r ∧
    clientAuthE cfg r = Except.ok r ∧
    stageRejects (addAuthHeaderE cfg r) = false ∧
    stageRejects (clientAuthE cfg r) = false := by
  have hmain : addAuthHeaderE cfg r = Except.ok r ∧ clientAuthE cfg r = Except.ok r := by
    rcases hu : truthyVal cfg.username with _ | uv <;>
      rcases hp : truthyVal cfg.password with _ | pv <;>
        simp [addAuthHeaderE, clientAuthE, ht, hb, hu, hp, jsOr]
    rcases hup with h | h
    · rw [hu] at h; cases h
    · rw [hp] at h; cases h
  exact ⟨hmain.1, hmain.2, by rw [hmain.1]; rfl, by rw [hmain.2]; rfl⟩

/-- C1 witness: concrete application of the amended theorem. -/
theorem auth_stage_no_credentials_witness :
    addAuthHeaderE ⟨none, some "admin", none⟩
        ⟨some "get", some "/projects", ⟨none, []⟩, none, none⟩ =
      Except.ok ⟨some "get", some "/projects", ⟨none, []⟩, none, none⟩ ∧
    clientAuthE ⟨none, some "admin", none⟩
        ⟨some "get", some "/projects", ⟨none, []⟩, none, none⟩ =
      Except.ok ⟨some "get", some "/projects", ⟨none, []⟩, none, none⟩ ∧
    stageRejects (addAuthHeaderE ⟨none, some "admin", none⟩
        ⟨some "get", some "/projects", ⟨none, []⟩, none, none⟩) = false ∧
    stageRejects (clientAuthE ⟨none, some "admin", none⟩
        ⟨some "get", some "/projects", ⟨none, []⟩, none, none⟩) = false :=
  auth_stage_no_credentials ⟨none, some "admin", none⟩
    ⟨some "get", some "/projects", ⟨none, []⟩, none, none⟩ rfl (Or.inr rfl) rfl

/-- C2: for every transport failure carrying an HTTP response (with a real,
nonzero status when present), both error normalization implementations map
401→AuthInvalid, 403→Forbidden, 404→NotFound and anything else→ApiError,
with httpStatus equal to the original status and 500 only when the status is
absent. -/
theorem http_status_kind_mapping (e : AxiosErr) (resp : AxResponse)
    (hresp : e.response = some resp) (hs : resp.status ≠ some 0) :
    ((handleErrorResponse e).etype = specKindOfStatus resp.status ∧
     (handleErrorResponse e).statusCode = specHttpStatus resp.status) ∧
    ((clientErrorInterceptor e).etype = specKindOfStatus resp.status ∧
     (clientErrorInterceptor e).statusCode = specHttpStatus resp.status) := by
  rcases hst : resp.status with _ | n
  · simp [handleErrorResponse, clientErrorInterceptor, hresp, hst,
      specKindOfStatus, specHttpStatus, jsOrNat]
  · have hn0 : n ≠ 0 := by
      intro h
      exact hs (by rw [hst, h])
    by_cases h1 : n = 401
    · subst h1
      simp [handleErrorResponse, clientErrorInterceptor, hresp, hst,
        specKindOfStatus, specHttpStatus]
    · by_cases h2 : n = 403
      · subst h2
        simp [handleErrorResponse, clientErrorInterceptor, hresp, hst,
          specKindOfStatus, specHttpStatus]
      · by_cases h3 : n = 404
        · subst h3
          simp [handleErrorResponse, clientErrorInterceptor, hresp, hst,
            specKindOfStatus, specHttpStatus]
        · simp [handleErrorResponse, clientErrorInterceptor, hresp, hst,
            specKindOfStatus, specHttpStatus, jsOrNat, h1, h2, h3, hn0]

/-- C2 witness: the 404 scenario from the spec, with a body carrying a
nested errors[0].message. -/
theorem http_status_kind_mapping_witness :
    ((handleErrorResponse
        ⟨some ⟨some 404, some ⟨some [⟨some "Project not found"⟩], none, none⟩⟩,
         some "Request failed with status code 404"⟩).etype =
      ErrorType.NOT_FOUND ∧
     (handleErrorResponse
        ⟨some ⟨some 404, some ⟨some [⟨some "Project not found"⟩], none, none⟩⟩,
         some "Request failed with status code 404"⟩).statusCode = 404) ∧
    ((clientErrorInterceptor
        ⟨some ⟨some 404, some ⟨some [⟨some "Project not found"⟩], none, none⟩⟩,
         some "Request failed with status code 404"⟩).etype =
      ErrorType.NOT_FOUND ∧
     (clientErrorInterceptor
        ⟨some ⟨some 404, some ⟨some [⟨some "Project not found"⟩], none, none⟩⟩,
         some "Request failed with status code 404"⟩).statusCode = 404) :=
  http_status_kind_mapping
    ⟨some ⟨some 404, some ⟨some [⟨some "Project not found"⟩], none, none⟩⟩,
     some "Request failed with status code 404"⟩
    ⟨some 404, some ⟨some [⟨some "Project not found"⟩], none, none⟩⟩
    rfl (by decide)

/-- C3 counterexample: a 404 response whose body has no errors array and no
message, from a transport error with no message of its own, is normalized
with an absent message by both implementations — there is no fixed default
literal in the response-carrying branch, contradicting "the result is never
absent". -/
theorem error_message_priority_cex :
    (handleErrorResponse ⟨some ⟨some 404, some ⟨none, none, none⟩⟩, none⟩).message =
      none ∧
    (clientErrorInterceptor ⟨some ⟨some 404, some ⟨none, none, none⟩⟩, none⟩).message =
      none :=
  ⟨rfl, rfl⟩

/-- C3 (amended): for failures carrying an HTTP response, `handleErrorResponse`
chooses the message as errors[0].message if present and non-empty, else the
body's top-level message if present and non-empty, else the transport
error's own message — with no default literal, so the result may be absent
or empty; the inline `addErrorInterceptor` variant instead uses the body's
`error.message` field, else the transport error's message. -/
theorem error_message_priority (e : AxiosErr) (resp : AxResponse)
    (hresp : e.response = some resp) :
    (handleErrorResponse e).message =
      jsOr (jsOr (dataErrorsFirstMessage resp.data) (dataMessage resp.data))
        e.message ∧
    (clientErrorInterceptor e).message =
      jsOr (dataErrorMessage resp.data) e.message := by
  constructor
  · unfold handleErrorResponse
    rw [hresp]
    dsimp only
    split
    · rfl
    · split
      · rfl
      · split <;> rfl
  · unfold clientErrorInterceptor
    rw [hresp]
    dsimp only
    split
    · rfl
    · split
      · rfl
      · split <;> rfl

/-- C3 witness: the nested errors[0].message wins when present. -/
theorem error_message_priority_witness :
    (handleErrorResponse
        ⟨some ⟨some 404, some ⟨some [⟨some "Project not found"⟩], some "outer", none⟩⟩,
         some "Request failed"⟩).message = some "Project not found" ∧
    (clientErrorInterceptor
        ⟨some ⟨some 404, some ⟨some [⟨some "Project not found"⟩], some "outer", none⟩⟩,
         some "Request failed"⟩).message = some "Request failed" := by
  have h := error_message_priority
    ⟨some ⟨some 404, some ⟨some [⟨some "Project not found"⟩], some "outer", none⟩⟩,
     some "Request failed"⟩
    ⟨some 404, some ⟨some [⟨some "Project not found"⟩], some "outer", none⟩⟩ rfl
  simpa [jsOr, dataErrorsFirstMessage, dataMessage, dataErrorMessage] using h

/-- C4 counterexample: on a pure network failure whose transport error does
have its own message, the interceptor installed by `addErrorInterceptor`
still uses the literal "Network error occurred", contradicting "message
equal to the transport error's own message when it has one". -/
theorem network_failure_normalization_cex :
    (clientErrorInterceptor ⟨none, some "connect ECONNREFUSED 127.0.0.1:7990"⟩).message =
      some "Network error occurred" ∧
    (⟨none, some "connect ECONNREFUSED 127.0.0.1:7990"⟩ : AxiosErr).message =
      some "connect ECONNREFUSED 127.0.0.1:7990" ∧
    "Network error occurred" ≠ "connect ECONNREFUSED 127.0.0.1:7990" := by
  refine ⟨rfl, rfl, ?_⟩
  decide

/-- C4 (amended): on a pure network failure both implementations throw
exactly one error with kind RequestError, httpStatus 500 and cause the
original error; `handleErrorResponse` uses the transport error's own
non-empty message when available and the literal "Network error occurred"
otherwise, while the inline `addErrorInterceptor` always uses the literal. -/
theorem network_failure_normalization (e : AxiosErr) (h : e.response = none) :
    (handleErrorResponse e).etype = ErrorType.REQUEST_ERROR ∧
    (handleErrorResponse e).statusCode = 500 ∧
    (handleErrorResponse e).cause = some e ∧
    (∀ m, e.message = some m → m ≠ "" → (handleErrorResponse e).message = some m) ∧
    ((e.message = none ∨ e.message = some "") →
      (handleErrorResponse e).message = some "Network error occurred") ∧
    (clientErrorInterceptor e).etype = ErrorType.REQUEST_ERROR ∧
    (clientErrorInterceptor e).statusCode = 500 ∧
    (clientErrorInterceptor e).cause = some e ∧
    (clientErrorInterceptor e).message = some "Network error occurred" := by
  refine ⟨?_, ?_, ?_, ?_, ?_, ?_, ?_, ?_, ?_⟩ <;>
    simp [handleErrorResponse, clientErrorInterceptor, h, jsOr]
  · intro m hm hne
    simp [hm, hne]
  · intro hmsg
    rcases hmsg with hm | hm <;> simp [hm]

/-- C4 witness: concrete network failure with its own message. -/
theorem network_failure_normalization_witness :
    (handleErrorResponse ⟨none, some "socket hang up"⟩).etype =
      ErrorType.REQUEST_ERROR ∧
    (handleErrorResponse ⟨none, some "socket hang up"⟩).statusCode = 500 ∧
    (handleErrorResponse ⟨none, some "socket hang up"⟩).message =
      some "socket hang up" ∧
    (clientErrorInterceptor ⟨none, some "socket hang up"⟩).message =
      some "Network error occurred" := by
  have h := network_failure_normalization ⟨none, some "socket hang up"⟩ rfl
  exact ⟨h.1, h.2.1, h.2.2.2.1 "socket hang up" rfl (by decide), h.2.2.2.2.2.2.2.2⟩

/-- C5 counterexample: the generated-client `authMiddleware` has no Basic
auth branch — with no bearer token and a non-empty username and password
configured it leaves the request without any Authorization header,
contradicting the claim that the auth stage sets "Basic " + base64(u:p) in
that situation. -/
theorem auth_header_values_cex :
    authMiddlewareE ⟨none, some "admin", some "secret1"⟩
        ⟨some "get", some "/rest/api/latest/projects", ⟨none, []⟩, none, none⟩ =
      Except.ok ⟨some "get", some "/rest/api/latest/projects", ⟨none, []⟩, none, none⟩ ∧
    stageAuthHeader (authMiddlewareE ⟨none, some "admin", some "secret1"⟩
        ⟨some "get", some "/rest/api/latest/projects", ⟨none, []⟩, none, none⟩) =
      none ∧
    (none : Option String) ≠ some ("Basic " ++ base64EncodeStr "admin:secret1") := by
  refine ⟨rfl, rfl, ?_⟩
  simp

/-- C5 (amended): `addAuthHeader` and the client auth interceptor set
`Authorization` to "Bearer " + token whenever a non-empty token is
configured (priority over username/password) and to
"Basic " + base64(username + ":" + password) whenever no token is configured
but both are non-empty (with no per-request override present); the
generated-client `authMiddleware` sets only the Bearer header and never
produces a Basic one. -/
theorem auth_header_values (cfg : AuthCfg) (r : Req) :
    (∀ t, truthyVal cfg.token = some t →
      addAuthHeaderE cfg r = Except.ok (setAuthHeader r ("Bearer " ++ t)) ∧
      clientAuthE cfg r = Except.ok (setAuthHeader r ("Bearer " ++ t)) ∧
      authMiddlewareE cfg r = Except.ok (setAuthHeader r ("Bearer " ++ t))) ∧
    (truthyVal cfg.token = none → ∀ u p,
      truthyVal cfg.username = some u → truthyVal cfg.password = some p →
      addAuthHeaderE cfg r =
        Except.ok (setAuthHeader r ("Basic " ++ base64EncodeStr (u ++ ":" ++ p))) ∧
      (r.bitbucket = none →
        clientAuthE cfg r =
          Except.ok (setAuthHeader r ("Basic " ++ base64EncodeStr (u ++ ":" ++ p))))) ∧
    (truthyVal cfg.token = none → authMiddlewareE cfg r = Except.ok r) := by
  refine ⟨?_, ?_, ?_⟩
  · intro t ht
    refine ⟨?_, ?_, ?_⟩ <;>
      simp [addAuthHeaderE, clientAuthE, authMiddlewareE, truthyVal_jsOr_self, ht]
  · intro ht u p hu hp
    constructor
    · simp [addAuthHeaderE, ht, hu, hp]
    · intro hb
      simp [clientAuthE, ht, hb, jsOr, hu, hp]
  · intro ht
    simp [authMiddlewareE, truthyVal_jsOr_self, ht]

/-- C5 witness: concrete Bearer and Basic applications of the amended
theorem. -/
theorem auth_header_values_witness :
    addAuthHeaderE ⟨some "tok123", some "admin", some "secret1"⟩
        ⟨some "get", some "/projects", ⟨none, []⟩, none, none⟩ =
      Except.ok (setAuthHeader
        ⟨some "get", some "/projects", ⟨none, []⟩, none, none⟩ "Bearer tok123") ∧
    addAuthHeaderE ⟨none, some "admin", some "secret1"⟩
        ⟨some "get", some "/projects", ⟨none, []⟩, none, none⟩ =
      Except.ok (setAuthHeader
        ⟨some "get", some "/projects", ⟨none, []⟩, none, none⟩
        ("Basic " ++ base64EncodeStr "admin:secret1")) := by
  constructor
  · exact ((auth_header_values ⟨some "tok123", some "admin", some "secret1"⟩
      ⟨some "get", some "/projects", ⟨none, []⟩, none, none⟩).1 "tok123" rfl).1
  · exact ((auth_header_values ⟨none, some "admin", some "secret1"⟩
      ⟨some "get", some "/projects", ⟨none, []⟩, none, none⟩).2.1 rfl
      "admin" "secret1" rfl rfl).1

/-- C6 counterexample: with the server URL key unset, `createClient` throws
the plain `Error` with the fixed message — not an `McpError` of kind
ConfigError — contradicting the claim that the first configuration read
raises an error of kind ConfigError. -/
theorem server_url_check_cex :
    createClientE none = Except.error (Raised.plain urlMissingMsg) ∧
    raisedIsConfigError (createClientE none) = false :=
  ⟨rfl, rfl⟩

/-- C6 (amended): if the server URL key is unset (or empty, which is equally
falsy), client construction fails immediately — before any interceptor is
installed and before any network call — but with a plain `Error` carrying
the fixed message, not a ConfigError-kinded `McpError`; the generated-client
configuration stores the possibly-absent URL with no check and raises
nothing. -/
theorem server_url_check (u : Option String) (h : truthyVal u = none) :
    createClientE u = Except.error (Raised.plain urlMissingMsg) ∧
    raisedIsConfigError (createClientE u) = false ∧
    apiConfigBasePath u = u := by
  refine ⟨?_, ?_, rfl⟩ <;> simp [createClientE, raisedIsConfigError, h]

/-- C6 witness: concrete application at the unset URL. -/
theorem server_url_check_witness :
    createClientE none = Except.error (Raised.plain urlMissingMsg) ∧
    raisedIsConfigError (createClientE none) = false ∧
    apiConfigBasePath none = none :=
  server_url_check none rfl

/-- C7: a tool invocation with an explicit limit outside [1,100] or an
explicit start below 0 makes both list handlers throw a ValidationError
(httpStatus 400) before the service call; with limit in [1,100] and
start ≥ 0 the bounds checks raise nothing and the options reach the
service. -/
theorem pagination_bounds_validation (name permission : Option String)
    (limit start : Option Int) :
    (((∃ l, limit = some l ∧ (l < 1 ∨ 100 < l)) ∨
      (∃ s, start = some s ∧ s < 0)) →
      (∃ e, listProjectsValidate name permission limit start = Except.error e ∧
        e.etype = ErrorType.VALIDATION_ERROR ∧ e.statusCode = 400) ∧
      (∃ e, listRepositoriesValidate limit start = Except.error e ∧
        e.etype = ErrorType.VALIDATION_ERROR ∧ e.statusCode = 400)) ∧
    ((∀ l, limit = some l → 1 ≤ l ∧ l ≤ 100) →
     (∀ s, start = some s → 0 ≤ s) →
      listProjectsValidate name permission limit start =
        Except.ok ⟨name, permission, limit, start⟩ ∧
      listRepositoriesValidate limit start = Except.ok ⟨limit, start⟩) := by
  constructor
  · intro h
    rcases hLO : limitOutOfRange limit with _ | _
    · have hSN : startNegative start = true := by
        rcases h with ⟨l, hl, hr⟩ | ⟨s, hs, hr⟩
        · exfalso
          subst hl
          simp [limitOutOfRange] at hLO
          omega
        · subst hs
          simp [startNegative]
          omega
      constructor
      · exact ⟨createValidationError "Parameter \"start\" must be 0 or greater.",
          by simp [listProjectsValidate, hLO, hSN], rfl, rfl⟩
      · exact ⟨createValidationError "Parameter \"start\" must be 0 or greater.",
          by simp [listRepositoriesValidate, hLO, hSN], rfl, rfl⟩
    · constructor
      · exact ⟨createValidationError "Parameter \"limit\" must be between 1 and 100.",
          by simp [listProjectsValidate, hLO], rfl, rfl⟩
      · exact ⟨createValidationError "Parameter \"limit\" must be between 1 and 100.",
          by simp [listRepositoriesValidate, hLO], rfl, rfl⟩
  · intro hl hs
    have h1 : limitOutOfRange limit = false := by
      cases limit with
      | none => rfl
      | some l =>
        have := hl l rfl
        simp [limitOutOfRange]
        omega
    have h2 : startNegative start = false := by
      cases start with
      | none => rfl
      | some s =>
        have := hs s rfl
        simp [startNegative]
        omega
    constructor <;> simp [listProjectsValidate, listRepositoriesValidate, h1, h2]

/-- C7 witness: in-range parameters pass the bounds checks, and an explicit
limit of 101 is rejected with a ValidationError. -/
theorem pagination_bounds_validation_witness :
    (listProjectsValidate none none (some 25) (some 0) =
      Except.ok ⟨none, none, some 25, some 0⟩ ∧
     listRepositoriesValidate (some 25) (some 0) =
      Except.ok ⟨some 25, some 0⟩) ∧
    (∃ e, listProjectsValidate none none (some 101) (some 0) = Except.error e ∧
      e.etype = ErrorType.VALIDATION_ERROR ∧ e.statusCode = 400) := by
  constructor
  · refine (pagination_bounds_validation none none (some 25) (some 0)).2 ?_ ?_
    · intro l hl
      cases hl
      exact ⟨by decide, by decide⟩
    · intro s hs
      cases hs
      decide
  · exact ((pagination_bounds_validation none none (some 101) (some 0)).1
      (Or.inl ⟨101, rfl, Or.inr (by decide)⟩)).1

/-- C8 counterexample: `createAuthError` constructs an error of kind
AUTH_ERROR, a tenth member of the `ErrorType` enum that is not among the
nine kinds the claim lists as the entire closed enumeration. -/
theorem error_kinds_closed_cex :
    (createAuthError "Authentication failed").etype = ErrorType.AUTH_ERROR ∧
    ErrorType.AUTH_ERROR ∉ specNineKinds := by
  constructor
  · rfl
  · decide

/-- C8 (amended): the `ErrorType` enumeration is closed with exactly ten
kinds — the nine the spec lists plus AuthError — and every error built by
the error constructors or thrown by the error-normalization interceptors
carries one of these ten kinds. -/
theorem error_kinds_closed_ten :
    (∀ t : ErrorType, t ∈ errorTypeAll) ∧
    (∀ m, (createAuthMissingError m).etype ∈ errorTypeAll) ∧
    (∀ m, (createAuthInvalidError m).etype ∈ errorTypeAll) ∧
    (∀ m s c, (createApiError m s c).etype ∈ errorTypeAll) ∧
    (∀ m, (createNotFoundError m).etype ∈ errorTypeAll) ∧
    (∀ m, (createAuthError m).etype ∈ errorTypeAll) ∧
    (∀ m, (createForbiddenError m).etype ∈ errorTypeAll) ∧
    (∀ m c, (createRequestError m c).etype ∈ errorTypeAll) ∧
    (∀ m, (createValidationError m).etype ∈ errorTypeAll) ∧
    (∀ m, (createConfigError m).etype ∈ errorTypeAll) ∧
    (∀ e, (handleErrorResponse e).etype ∈ errorTypeAll) ∧
    (∀ e, (clientErrorInterceptor e).etype ∈ errorTypeAll) := by
  refine ⟨?_, ?_, ?_, ?_, ?_, ?_, ?_, ?_, ?_, ?_, ?_, ?_⟩
  · intro t
    cases t <;> simp [errorTypeAll]
  · intro m
    simp [createAuthMissingError, errorTypeAll]
  · intro m
    simp [createAuthInvalidError, errorTypeAll]
  · intro m s c
    simp [createApiError, errorTypeAll]
  · intro m
    simp [createNotFoundError, errorTypeAll]
  · intro m
    simp [createAuthError, errorTypeAll]
  · intro m
    simp [createForbiddenError, errorTypeAll]
  · intro m c
    simp [createRequestError, errorTypeAll]
  · intro m
    simp [createValidationError, errorTypeAll]
  · intro m
    simp [createConfigError, errorTypeAll]
  · intro e
    unfold handleErrorResponse
    rcases e.response with _ | resp
    · simp [errorTypeAll]
    · dsimp only
      split
      · simp [errorTypeAll]
      · split
        · simp [errorTypeAll]
        · split <;> simp [errorTypeAll]
  · intro e
    unfold clientErrorInterceptor
    rcases e.response with _ | resp
    · simp [errorTypeAll]
    · dsimp only
      split
      · simp [errorTypeAll]
      · split
        · simp [errorTypeAll]
        · split <;> simp [errorTypeAll]

/-- C9: the pre-transport logging stage is observational only — both the
module handler `logRequest` and the client's inline variant return the
request context itself (method, URL, headers and body unchanged) alongside
the emitted debug line, and neither has a rejecting path. -/
theorem logging_stage_observational (r : Req) :
    logRequest r = Except.ok (logLine r, r) ∧
    clientLogRequest r = Except.ok (logLine r, r) ∧
    logStageRejects (logRequest r) = false ∧
    logStageRejects (clientLogRequest r) = false :=
  ⟨rfl, rfl, rfl, rfl⟩

/-- C10: `ensureMcpError` is total and idempotent — an `McpError` input is
returned unchanged, any other input is wrapped as an UnexpectedError with
httpStatus 500, and applying the function twice equals applying it once. -/
theorem ensure_mcp_error_idempotent :
    (∀ m t s c, ensureMcpErrorV (.mcp m t s c) = .mcp m t s c) ∧
    (∀ e, isMcpV (ensureMcpErrorV e) = true) ∧
    (∀ e, isMcpV e = false →
      etypeOfV (ensureMcpErrorV e) = some ErrorType.UNEXPECTED_ERROR ∧
      statusOfV (ensureMcpErrorV e) = some 500) ∧
    (∀ e, ensureMcpErrorV (ensureMcpErrorV e) = ensureMcpErrorV e) := by
  refine ⟨?_, ?_, ?_, ?_⟩
  · intro m t s c
    rfl
  · intro e
    cases e <;> rfl
  · intro e h
    cases e with
    | mcp m t s c => simp [isMcpV] at h
    | jsError m => exact ⟨rfl, rfl⟩
    | other s => exact ⟨rfl, rfl⟩
  · intro e
    cases e <;> rfl

/-- C10 witness: a plain `Error` input is wrapped as UnexpectedError 500. -/
theorem ensure_mcp_error_idempotent_witness :
    etypeOfV (ensureMcpErrorV (.jsError "boom")) =
      some ErrorType.UNEXPECTED_ERROR ∧
    statusOfV (ensureMcpErrorV (.jsError "boom")) = some 500 :=
  ensure_mcp_error_idempotent.2.2.1 (.jsError "boom") rfl

end BbMcp
